import Mathlib

/-!
# Verification of the MGVCL bill-extraction orchestration layer

Shallow embedding of the session-pool / dispatcher / captcha-relay core of
the MGVCLBillAmount repository (src/server.js, middle revision, and
src/src/browserManager.js holding `BrowserManager` and `ExcelProcessor`).

Conventions of the embedding:
* JavaScript `Map` objects become association lists (`mapGet` / `mapSet`
  mirror `Map.get` / `Map.set`), `Set` objects become duplicate-free lists
  (`setAdd` / `setDelete` mirror `Set.add` / `Set.delete`).
* Promise resolution is made observable: each pending `getAvailableBrowser`
  caller is a numbered waiter; resolving its promise appends an entry to the
  `resolved` log of the pool state.
* Timestamps are naturals (milliseconds, as `Date.now()`).
* Browser/page side effects (navigation, DOM queries) are abstracted as
  oracle parameters giving the external site's observable response; they
  mutate no pool state in the source either.
-/

namespace MGVCL

/-! ## Identifier handling (`ExcelProcessor`, src/src/browserManager.js lines 591-653) -/

/-- `consumerNo.replace(/\D/g, '')` — strip every non-digit character. -/
def stripNonDigits (s : String) : String :=
  ⟨s.data.filter Char.isDigit⟩

/-- `ExcelProcessor.isValidConsumerNumber`: after stripping non-digits the
identifier must have between 6 and 15 digits. -/
def isValidConsumerNumber (consumerNo : String) : Bool :=
  let numericOnly := stripNonDigits consumerNo
  decide (6 ≤ numericOnly.length) && decide (numericOnly.length ≤ 15)

/-- `s.padStart(11, '0')` — left-pad with zeros up to width 11; a string of
width 11 or more is returned unchanged (`11 - length = 0` pads nothing). -/
def padStart11 (s : String) : String :=
  ⟨List.replicate (11 - s.length) '0' ++ s.data⟩

/-- `ExcelProcessor.formatConsumerNumber`: strip non-digits, then zero-pad to
11 when shorter than 11, else return the digit string unchanged. -/
def formatConsumerNumber (consumerNo : String) : String :=
  let numericOnly := stripNonDigits consumerNo
  if numericOnly.length < 11 then padStart11 numericOnly else numericOnly

/-- JavaScript `String.prototype.trim`: strip leading and trailing
whitespace (structural definition on the character list; the positional
library trim computes the same string). -/
def jsTrim (s : String) : String :=
  ⟨((s.data.dropWhile Char.isWhitespace).reverse.dropWhile Char.isWhitespace).reverse⟩

/-- JavaScript truthiness of a string: every non-empty string is truthy. -/
def jsTruthy (s : String) : Bool :=
  !s.data.isEmpty

/-- Body of the row loop of `ExcelProcessor.readConsumerNumbers`: take the
first cell of the row, require it truthy with a truthy trim, validate, and
append the trimmed raw value (the source never formats here). -/
def readStep (acc : List String) (row : List String) : List String :=
  match row.head? with
  | none => acc
  | some c =>
    if jsTruthy c && jsTruthy (jsTrim c) then
      if isValidConsumerNumber (jsTrim c) then acc ++ [jsTrim c] else acc
    else acc

/-- `ExcelProcessor.readConsumerNumbers` on the cell matrix of the first
sheet: skip the header row, keep valid trimmed identifiers in order. -/
def readConsumerNumbers (rows : List (List String)) : List String :=
  (rows.drop 1).foldl readStep []

/-! ## Billing data and result entries -/

/-- The record returned by `BrowserManager.extractBillingData` (fields read
from the result page by element id). -/
structure BillingData where
  consumerName : String
  consumerNo : String
  lastPaidDetail : String
  outstandingAmount : String
  billDate : String
  amountToPay : String
  location : String
deriving Repr, DecidableEq

/-- One entry of `session.results`. Success entries flatten the billing data
into the object; we keep it nested in `data` and surface the one flattened
field the orchestration reads back (`consumerNo`). -/
structure ResultEntry where
  consumerNo : String
  error : Option String
  data : Option BillingData
  browserId : Option String
deriving Repr, DecidableEq

/-- `processConsumer`'s successful return value
`{ consumerNo: formattedConsumerNo, ...billingData, browserId }`.
The object spread places `billingData` after the explicit `consumerNo`
property, so `billingData.consumerNo` (the CUST_ID echoed by the site)
overwrites `formattedConsumerNo` in the returned record. -/
def processConsumerReturn (formattedConsumerNo : String) (d : BillingData)
    (browserId : String) : ResultEntry :=
  { consumerNo := d.consumerNo
    error := none
    data := some d
    browserId := some browserId }

/-- The error entry `{ consumerNo, error: error.message }` pushed by
`handleConsumerCompletion`'s catch branch (raw, unformatted identifier). -/
def recordFailure (consumerNo : String) (msg : String) : ResultEntry :=
  { consumerNo := consumerNo, error := some msg, data := none, browserId := none }

/-! ## The browser pool (`BrowserManager`, src/src/browserManager.js lines 1-575)

Per-browser state keeps the fields the orchestration reads and writes
(`busy`, `currentConsumer`, `captchaRequired`); the Playwright handles
(`browser`, `context`, `page`) and the `lastCaptchaRefresh` timestamp carry
no orchestration-relevant information and are omitted. -/

structure BrowserData where
  busy : Bool
  currentConsumer : Option String
  captchaRequired : Bool
deriving Repr, DecidableEq

/-- An entry of `this.browserQueue`. `getAvailableBrowser` pushes the wrapper
closure `(browserId) => { clearTimeout(timeoutId); resolve(browserId) }` for
waiter `w`; the bare `resolve` function of waiter `w` is a distinct object
that the source never pushes, but whose identity the timeout handler searches
for with `indexOf(resolve)`. -/
inductive QueueEntry
  | wrapper (w : Nat)
  | resolver (w : Nat)
deriving Repr, DecidableEq

/-- The waiter a queue entry resolves when it is invoked. -/
def waiterOf : QueueEntry → Nat
  | .wrapper w => w
  | .resolver w => w

/-- `Map.get`. -/
def mapGet (m : List (String × BrowserData)) (k : String) : Option BrowserData :=
  match m with
  | [] => none
  | (k₁, v) :: rest => if k₁ = k then some v else mapGet rest k

/-- `Map.set` (replace an existing key, else append). -/
def mapSet (m : List (String × BrowserData)) (k : String) (v : BrowserData) :
    List (String × BrowserData) :=
  match m with
  | [] => [(k, v)]
  | (k₁, v₁) :: rest => if k₁ = k then (k, v) :: rest else (k₁, v₁) :: mapSet rest k v

/-- `Map.delete` on the captcha-lock table keyed by browser id; a lock stores
`{ timestamp, consumerNo }`. -/
def lockDelete (m : List (String × Nat × String)) (k : String) :
    List (String × Nat × String) :=
  m.filter (fun e => e.1 != k)

/-- `Map.set` on the captcha-lock table. -/
def lockSet (m : List (String × Nat × String)) (k : String) (v : Nat × String) :
    List (String × Nat × String) :=
  match m with
  | [] => [(k, v)]
  | (k₁, v₁) :: rest => if k₁ = k then (k, v) :: rest else (k₁, v₁) :: lockSet rest k v

/-- `Set.add`. -/
def setAdd (l : List String) (x : String) : List String :=
  if l.contains x then l else l ++ [x]

/-- `Set.delete`. -/
def setDelete (l : List String) (x : String) : List String :=
  l.filter (fun y => y != x)

/-- The mutable fields of a `BrowserManager` instance, plus the `resolved`
log recording every promise resolution handed to a queued waiter
(`(w, some id)` when `w`'s queue entry is invoked with a browser id,
`(w, none)` when the timeout handler resolves `w` with `null`). -/
structure PoolState where
  browsers : List (String × BrowserData)
  availableBrowsers : List String
  busyBrowsers : List String
  captchaLocks : List (String × Nat × String)
  browserQueue : List QueueEntry
  resolved : List (Nat × Option String)
deriving Repr, DecidableEq

/-- Immediate outcome of `getAvailableBrowser` for the calling worker. -/
inductive AcquireResult
  | granted (browserId : String)
  | queuedWaiter
  | nullResult
deriving Repr, DecidableEq

/-- Reference bound of the queued wait inside `getAvailableBrowser`
(`5 * 60 * 1000` ms). -/
def acquireWaitBoundMs : Nat := 5 * 60 * 1000

/-- `BrowserManager.getAvailableBrowser` (lines 72-110), for waiter `w`
(initialization is assumed done). With the free list empty the caller's
wrapper closure is appended to `browserQueue` and the promise stays pending
(`queuedWaiter`). Otherwise the first free id is shifted, added to the busy
set and marked busy; the defensive `if (!browserId) return null` and the
`browsers.get` miss both yield `nullResult`. -/
def getAvailableBrowser (w : Nat) (s : PoolState) : AcquireResult × PoolState :=
  match s.availableBrowsers with
  | [] => (.queuedWaiter, { s with browserQueue := s.browserQueue ++ [.wrapper w] })
  | browserId :: rest =>
    if browserId.isEmpty then
      (.nullResult, { s with availableBrowsers := rest })
    else
      let s₁ := { s with availableBrowsers := rest
                         busyBrowsers := setAdd s.busyBrowsers browserId }
      match mapGet s₁.browsers browserId with
      | some bd =>
        (.granted browserId,
         { s₁ with browsers := mapSet s₁.browsers browserId { bd with busy := true } })
      | none => (.nullResult, s₁)

/-- Position of the first queue entry identical (by reference, here by value
of the constructor) to `e`; `Array.prototype.indexOf`. -/
def indexOfEntry (q : List QueueEntry) (e : QueueEntry) : Option Nat :=
  match q with
  | [] => none
  | e₁ :: rest =>
    if e₁ = e then some 0 else (indexOfEntry rest e).map (· + 1)

/-- The `setTimeout` handler installed by `getAvailableBrowser` for waiter
`w`, firing after `acquireWaitBoundMs`: it looks up `browserQueue.indexOf(resolve)`
— the bare resolver of `w`, never the wrapper that was actually pushed —
and only if found splices it out and resolves `w` with `null`. -/
def acquireTimeout (w : Nat) (s : PoolState) : PoolState :=
  match indexOfEntry s.browserQueue (.resolver w) with
  | some i =>
    { s with browserQueue := s.browserQueue.eraseIdx i
             resolved := s.resolved ++ [(w, none)] }
  | none => s

/-- `BrowserManager.releaseBrowser` (lines 112-153). `resetOk` tells whether
the `page.goto` reset of the external workflow state succeeded; on failure
the catch branch still marks the browser not busy and pushes it on the free
list, touching neither `currentConsumer`, `captchaRequired`, the captcha
locks nor the queue. On success the browser state is cleared, the
`browser-available` event fires (its listener is modeled separately by the
dispatcher) and the browser is handed to the first queued waiter if any,
else appended to the free list. Unknown ids return immediately. -/
def releaseBrowser (browserId : String) (resetOk : Bool) (s : PoolState) : PoolState :=
  match mapGet s.browsers browserId with
  | none => s
  | some bd =>
    if resetOk then
      let bd₁ : BrowserData :=
        { bd with busy := false, currentConsumer := none, captchaRequired := false }
      let s₁ := { s with browsers := mapSet s.browsers browserId bd₁
                         busyBrowsers := setDelete s.busyBrowsers browserId
                         captchaLocks := lockDelete s.captchaLocks browserId }
      match s₁.browserQueue with
      | nextRequest :: restQ =>
        { s₁ with browsers := mapSet s₁.browsers browserId { bd₁ with busy := true }
                  busyBrowsers := setAdd s₁.busyBrowsers browserId
                  browserQueue := restQ
                  resolved := s₁.resolved ++ [(waiterOf nextRequest, some browserId)] }
      | [] => { s₁ with availableBrowsers := s₁.availableBrowsers ++ [browserId] }
    else
      { s with browsers := mapSet s.browsers browserId { bd with busy := false }
               busyBrowsers := setDelete s.busyBrowsers browserId
               availableBrowsers := s.availableBrowsers ++ [browserId] }

/-- `BrowserManager.lockForCaptcha` (lines 155-165); `now` abstracts
`Date.now()` for the lock timestamp. -/
def lockForCaptcha (browserId : String) (consumerNo : String) (now : Nat)
    (s : PoolState) : PoolState :=
  match mapGet s.browsers browserId with
  | none => s
  | some bd =>
    { s with browsers := mapSet s.browsers browserId
               { bd with captchaRequired := true, currentConsumer := some consumerNo }
             captchaLocks := lockSet s.captchaLocks browserId (now, consumerNo) }

/-! ## Captcha relay (`submitCaptcha` and the `captcha-response` socket
handler, src/src/browserManager.js lines 339-398 and src/server.js lines
520-560) -/

/-- Observable response of the external site after the captcha answer is
filled in and the submit button clicked (the `waitForFunction` poll of
`submitCaptcha`): the bill-detail pane appears, the invalid-captcha modal
appears, neither does (the poll object is truthy, so `waitForFunction`
returns at once with both flags false), or the page evaluation itself
throws. -/
inductive SiteResponse
  | billShown
  | invalidCaptcha
  | pending
  | transportError (msg : String)
deriving Repr, DecidableEq

/-- `BrowserManager.submitCaptcha`: guard that the browser exists and has an
active captcha, then act on the site's response. On `billShown` the captcha
is marked resolved (`captchaRequired := false`) and `true` is returned; on
`invalidCaptcha` a fresh captcha is rendered (timestamp bookkeeping omitted)
and the error `Invalid captcha` is thrown; on `pending` the function returns
`false` with the state untouched; a thrown page error propagates. -/
def submitCaptcha (browserId : String) (resp : SiteResponse) (s : PoolState) :
    Except String (Bool × PoolState) :=
  match mapGet s.browsers browserId with
  | none => .error "Invalid browser or no captcha required"
  | some bd =>
    if !bd.captchaRequired then .error "Invalid browser or no captcha required"
    else
      match resp with
      | .billShown =>
        .ok (true,
          { s with browsers := mapSet s.browsers browserId { bd with captchaRequired := false } })
      | .invalidCaptcha => .error "Invalid captcha"
      | .pending => .ok (false, s)
      | .transportError msg => .error msg

/-- What the `captcha-response` handler emitted back to the submitting
client: was `captcha-submitted` sent (the answer was applied), was a
`captcha-error` sent and with which message, and did the answer reach the
external site at all (`submitCaptcha` invoked past the pairing guard). -/
structure CRResult where
  captchaSubmitted : Bool
  captchaError : Option String
  forwarded : Bool
deriving Repr, DecidableEq

/-- The `captcha-response` socket handler (src/server.js lines 520-560).
`sessionWaiting` is `session && session.waitingForCaptcha`; a false value
returns before the try block (nothing emitted, nothing released). Inside
the try block the pairing guard rejects when the browser is unknown, has no
active captcha, or its `currentConsumer` is not the submitted identifier;
`submitCaptcha` then forwards the answer, `extract` abstracts the follow-up
`submitAndGetResults` call (whose push onto `session.results` is outside
this claim's scope), and the finally block always releases the browser,
`resetOk` telling whether the release-time page reset succeeds. -/
def captchaResponse (sessionWaiting : Bool) (browserId consumerNo : String)
    (resp : SiteResponse) (extract : Except String BillingData) (resetOk : Bool)
    (s : PoolState) : CRResult × PoolState :=
  if !sessionWaiting then (⟨false, none, false⟩, s)
  else
    match mapGet s.browsers browserId with
    | none =>
      (⟨false, some "Invalid browser state or consumer mismatch", false⟩,
       releaseBrowser browserId resetOk s)
    | some bd =>
      if !bd.captchaRequired || bd.currentConsumer != some consumerNo then
        (⟨false, some "Invalid browser state or consumer mismatch", false⟩,
         releaseBrowser browserId resetOk s)
      else
        match submitCaptcha browserId resp s with
        | .error msg => (⟨false, some msg, true⟩, releaseBrowser browserId resetOk s)
        | .ok (_, s₁) =>
          match extract with
          | .ok _ => (⟨true, none, true⟩, releaseBrowser browserId resetOk s₁)
          | .error m => (⟨true, some m, true⟩, releaseBrowser browserId resetOk s₁)

/-! ## Dispatcher retry loop (`processConsumer`, src/server.js lines 992-1098) -/

/-- `maxRetries` of `processConsumer`. -/
def maxRetries : Nat := 3

/-- The fixed backoff `setTimeout(resolve, 5000)` between attempts. -/
def retryBackoffMs : Nat := 5000

/-- Observable scheduling events of one `processConsumer` run. -/
inductive PCEvent
  | acquire (browserId : String)
  | workflowAttempt (attemptIndex : Nat) (browserId : String)
  | release (browserId : String)
  | backoffWait (ms : Nat)
deriving Repr, DecidableEq

/-- The `while (retries < maxRetries)` loop of `processConsumer`. `acq n`
is the browser id granted for attempt `n` (the null-browser wait path is
not taken: the claim's scenario has acquisition succeed), `oracle n` the
outcome of the per-attempt workflow (navigate, select, enter number,
captcha round-trip, submit, extract) on attempt `n`. On success the browser
is released and the padded-then-overridden result object returned; on
failure the catch branch increments `retries`, releases the browser,
rethrows once `retries >= maxRetries`, else waits the fixed backoff and
loops. `fuel` is the loop variant `maxRetries - retries`; the fuel-zero
branch is the unreachable post-loop throw. -/
def processConsumerLoop (acq : Nat → String) (oracle : Nat → Except String BillingData)
    (consumerNo : String) :
    Nat → Nat → List PCEvent × Except String ResultEntry
  | _, 0 =>
    ([], .error ("Failed to process consumer " ++ consumerNo ++ " after 3 retries"))
  | retries, fuel + 1 =>
    if retries < maxRetries then
      let b := acq retries
      match oracle retries with
      | .ok d =>
        ([.acquire b, .workflowAttempt retries b, .release b],
         .ok (processConsumerReturn (padStart11 consumerNo) d b))
      | .error msg =>
        if retries + 1 ≥ maxRetries then
          ([.acquire b, .workflowAttempt retries b, .release b], .error msg)
        else
          let rest := processConsumerLoop acq oracle consumerNo (retries + 1) fuel
          (.acquire b :: .workflowAttempt retries b :: .release b ::
             .backoffWait retryBackoffMs :: rest.1,
           rest.2)
    else
      ([], .error ("Failed to process consumer " ++ consumerNo ++ " after 3 retries"))

/-- `processConsumer(consumerNo, _, sessionId)`: run the retry loop from
`retries = 0`. -/
def processConsumer (acq : Nat → String) (oracle : Nat → Except String BillingData)
    (consumerNo : String) : List PCEvent × Except String ResultEntry :=
  processConsumerLoop acq oracle consumerNo 0 maxRetries

/-- The promise handlers around `processConsumer` in `processConsumerNumbers`:
`handleConsumerCompletion` records the returned result on success, and the
catch branch records `{ consumerNo, error: error.message }` under the raw
identifier. -/
def runConsumer (acq : Nat → String) (oracle : Nat → Except String BillingData)
    (consumerNo : String) : List PCEvent × ResultEntry :=
  match processConsumer acq oracle consumerNo with
  | (evs, .ok r) => (evs, r)
  | (evs, .error msg) => (evs, recordFailure consumerNo msg)

/-! ## Completion checker (`completionChecker` and `finishProcessing`,
src/server.js lines 747-872) -/

/-- The stall window and hard ceiling of the checker. -/
def stallWindowMs : Nat := 60000

/-- `maxProcessingTime = 15 * 60 * 1000`. -/
def maxProcessingTimeMs : Nat := 15 * 60 * 1000

/-- The `isStalled` condition of the 5-second `completionChecker` interval,
exactly as written: `elapsedTime > 60000 && completedConsumers > 0 &&
elapsedTime > (lastCompletionTime + 60000)`. `elapsedTime` is the duration
`now - startTime`, while `lastCompletionTime` is the absolute timestamp
assigned from `Date.now()` (initially `startTime`). -/
def isStalled (startTime lastCompletionTime now completedConsumers : Nat) : Bool :=
  let elapsedTime := now - startTime
  decide (elapsedTime > 60000) && decide (completedConsumers > 0) &&
    decide (elapsedTime > lastCompletionTime + 60000)

/-- The completion decision of one checker tick, in the source's priority
order. -/
inductive CompletionReason
  | allProcessed
  | timedOut
  | stalled
  | forceComplete
  | keepRunning
deriving Repr, DecidableEq

/-- One tick of `completionChecker`: evaluate `isComplete`, `isTimeout`,
`isStalled` and `shouldForceComplete` and pick the first that holds. The
80% threshold `completedConsumers >= queue.length * 0.8` is modeled by the
exact comparison `5 * completed ≥ 4 * queueLen`; for batch sizes in range
the double-precision product admits no integer between it and the exact
value, so the comparisons agree. -/
def completionCheck (queueLen completedConsumers startTime lastCompletionTime now : Nat) :
    CompletionReason :=
  let elapsedTime := now - startTime
  if completedConsumers ≥ queueLen ∧ queueLen > 0 then .allProcessed
  else if elapsedTime > maxProcessingTimeMs then .timedOut
  else if isStalled startTime lastCompletionTime now completedConsumers then .stalled
  else if 5 * completedConsumers ≥ 4 * queueLen ∧ elapsedTime > 120000 then .forceComplete
  else .keepRunning

/-- The results-completion step of `finishProcessing` (lines 799-823): when
`completedConsumers` equals the queue length the results stand; otherwise
every queue identifier not literally present among `results[i].consumerNo`
is appended as a timeout error entry. -/
def finishResults (queue : List String) (completedConsumers : Nat)
    (results : List ResultEntry) : List ResultEntry :=
  if completedConsumers = queue.length then results
  else
    let processedConsumerNumbers := results.map (fun r => r.consumerNo)
    results ++
      (queue.filter (fun consumerNo => !processedConsumerNumbers.contains consumerNo)).map
        (fun consumerNo => recordFailure consumerNo "Processing timed out or was incomplete")

/-- Outcomes recorded for the submitted work item `item`, counting an entry
under the raw identifier and one under its zero-padded normalization as
outcomes of the same item. -/
def outcomesFor (item : String) (results : List ResultEntry) : Nat :=
  (results.filter (fun r => r.consumerNo == item || r.consumerNo == padStart11 item)).length

/-! ## Statistics (`ExcelProcessor.getStatistics`, src/src/browserManager.js
lines 781-806) -/

/-- The counters of `getStatistics`. The `totalAmount` accumulator sums
IEEE-double `parseFloat` values; it is outside this development's scope and
omitted. -/
structure Stats where
  total : Nat
  successful : Nat
  failed : Nat
deriving Repr, DecidableEq

/-- JavaScript truthiness of the `error` property: absent (or `undefined`)
and the empty string are falsy. -/
def isTruthyError : Option String → Bool
  | none => false
  | some s => !s.isEmpty

/-- Body of the `results.forEach` loop of `getStatistics`. -/
def statStep (stats : Stats) (result : ResultEntry) : Stats :=
  if isTruthyError result.error then { stats with failed := stats.failed + 1 }
  else { stats with successful := stats.successful + 1 }

/-- `ExcelProcessor.getStatistics` (counter part). -/
def getStatistics (results : List ResultEntry) : Stats :=
  results.foldl statStep { total := results.length, successful := 0, failed := 0 }

/-! ## Helper lemmas -/

theorem mem_readStep_foldl (l : List (List String)) (acc : List String) (x : String)
    (hx : x ∈ l.foldl readStep acc) : x ∈ acc ∨ isValidConsumerNumber x = true := by
  induction l generalizing acc with
  | nil => exact Or.inl hx
  | cons row rest ih =>
    rw [List.foldl_cons] at hx
    rcases ih (readStep acc row) hx with hmem | hval
    · unfold readStep at hmem
      cases hr : row.head? with
      | none => rw [hr] at hmem; exact Or.inl hmem
      | some c =>
        rw [hr] at hmem
        dsimp only at hmem
        by_cases h₁ : (jsTruthy c && jsTruthy (jsTrim c)) = true
        · rw [if_pos h₁] at hmem
          by_cases h₂ : isValidConsumerNumber (jsTrim c) = true
          · rw [if_pos h₂] at hmem
            rcases List.mem_append.mp hmem with h₃ | h₃
            · exact Or.inl h₃
            · rw [List.mem_singleton.mp h₃]
              exact Or.inr h₂
          · rw [if_neg h₂] at hmem; exact Or.inl hmem
        · rw [if_neg h₁] at hmem; exact Or.inl hmem
    · exact Or.inr hval

theorem readConsumerNumbers_valid (rows : List (List String)) (x : String)
    (hx : x ∈ readConsumerNumbers rows) : isValidConsumerNumber x = true := by
  rcases mem_readStep_foldl (rows.drop 1) [] x hx with h | h
  · exact absurd h (List.not_mem_nil x)
  · exact h

theorem formatConsumerNumber_digits (s : String) :
    (formatConsumerNumber s).data.all Char.isDigit = true := by
  unfold formatConsumerNumber
  by_cases hlen : (stripNonDigits s).length < 11
  · rw [if_pos hlen]
    show (List.replicate _ '0' ++ (stripNonDigits s).data).all Char.isDigit = true
    rw [List.all_append, Bool.and_eq_true]
    constructor
    · rw [List.all_eq_true]
      intro c hc
      rw [List.eq_of_mem_replicate hc]
      decide
    · rw [List.all_eq_true]
      intro c hc
      exact (List.mem_filter.mp hc).2
  · rw [if_neg hlen]
    rw [List.all_eq_true]
    intro c hc
    exact (List.mem_filter.mp hc).2

theorem formatConsumerNumber_length (s : String) :
    (formatConsumerNumber s).length = max 11 (stripNonDigits s).length := by
  unfold formatConsumerNumber
  by_cases hlen : (stripNonDigits s).length < 11
  · rw [if_pos hlen]
    show (List.replicate (11 - (stripNonDigits s).length) '0' ++ (stripNonDigits s).data).length = _
    rw [List.length_append, List.length_replicate]
    have hdl : (stripNonDigits s).data.length = (stripNonDigits s).length := rfl
    omega
  · rw [if_neg hlen]
    omega

theorem isValidConsumerNumber_iff (t : String) :
    isValidConsumerNumber t = true ↔
      6 ≤ (stripNonDigits t).length ∧ (stripNonDigits t).length ≤ 15 := by
  unfold isValidConsumerNumber
  rw [Bool.and_eq_true, decide_eq_true_iff, decide_eq_true_iff]

theorem mapGet_mapSet_self (m : List (String × BrowserData)) (k : String) (v : BrowserData) :
    mapGet (mapSet m k v) k = some v := by
  induction m with
  | nil => simp [mapSet, mapGet]
  | cons kv rest ih =>
    obtain ⟨k₁, v₁⟩ := kv
    by_cases hk : k₁ = k
    · simp [mapSet, mapGet, hk]
    · simp [mapSet, mapGet, hk, ih]

theorem mapGet_mapSet_ne (m : List (String × BrowserData)) (k k₂ : String) (v : BrowserData)
    (h : k₂ ≠ k) : mapGet (mapSet m k v) k₂ = mapGet m k₂ := by
  have h₂ : k ≠ k₂ := Ne.symm h
  induction m with
  | nil => simp [mapSet, mapGet, h₂]
  | cons kv rest ih =>
    obtain ⟨k₁, v₁⟩ := kv
    by_cases hk : k₁ = k
    · subst hk
      simp [mapSet, mapGet, h₂]
    · simp [mapSet, mapGet, hk, ih]

theorem not_mem_setDelete_self (l : List String) (x : String) :
    x ∉ setDelete l x := by
  intro hmem
  have := List.mem_filter.mp hmem
  simp at this

theorem releaseBrowser_get_self (s : PoolState) (browserId : String) (bd : BrowserData)
    (h : mapGet s.browsers browserId = some bd) :
    ∃ bd₂, mapGet (releaseBrowser browserId true s).browsers browserId = some bd₂
      ∧ bd₂.captchaRequired = false ∧ bd₂.currentConsumer = none := by
  cases hq : s.browserQueue with
  | nil =>
    refine ⟨{ bd with busy := false, currentConsumer := none, captchaRequired := false },
      ?_, rfl, rfl⟩
    simp [releaseBrowser, h, hq, mapGet_mapSet_self]
  | cons e rest =>
    refine ⟨{ bd with busy := true, currentConsumer := none, captchaRequired := false },
      ?_, rfl, rfl⟩
    simp [releaseBrowser, h, hq, mapGet_mapSet_self]

theorem getStatistics_foldl (l : List ResultEntry) (t a b : Nat) :
    l.foldl statStep ⟨t, a, b⟩ =
      ⟨t, a + (l.filter (fun r => !isTruthyError r.error)).length,
          b + (l.filter (fun r => isTruthyError r.error)).length⟩ := by
  induction l generalizing a b with
  | nil => simp
  | cons r rest ih =>
    by_cases he : isTruthyError r.error = true
    · rw [List.foldl_cons]
      show rest.foldl statStep (statStep ⟨t, a, b⟩ r) = _
      rw [show statStep ⟨t, a, b⟩ r = ⟨t, a, b + 1⟩ by simp [statStep, he]]
      rw [ih a (b + 1)]
      simp [List.filter_cons, he]
      omega
    · rw [List.foldl_cons]
      show rest.foldl statStep (statStep ⟨t, a, b⟩ r) = _
      rw [show statStep ⟨t, a, b⟩ r = ⟨t, a + 1, b⟩ by simp [statStep, he]]
      rw [ih (a + 1) b]
      simp [List.filter_cons, he]
      omega

theorem filter_length_partition (l : List ResultEntry) (p : ResultEntry → Bool) :
    (l.filter p).length + (l.filter (fun r => !p r)).length = l.length := by
  induction l with
  | nil => simp
  | cons r rest ih =>
    by_cases hp : p r = true <;> simp [List.filter_cons, hp] <;> omega

/-! ## Concrete fixtures used by the closed theorems and witnesses -/

/-- Billing data extracted for the 7-digit identifier `9876543`: the site
echoes the submitted (zero-padded) consumer number in the `CUST_ID` field. -/
def sampleBilling : BillingData :=
  { consumerName := "JOHN DOE"
    consumerNo := "00009876543"
    lastPaidDetail := "RS 100 ON 01-12-2024"
    outstandingAmount := "0"
    billDate := "01-01-2025"
    amountToPay := "100"
    location := "MGVCL-LOC" }

/-- A two-item batch: a 7-digit identifier and an 11-digit identifier. -/
def sampleQueue : List String := ["9876543", "14102000674"]

/-- Results after item `9876543` succeeded (recorded under the padded id it
was submitted as) and `14102000674` is still hanging: `completedConsumers`
is 1 of 2 when the checker forces completion. -/
def sampleResults : List ResultEntry :=
  [processConsumerReturn (padStart11 "9876543") sampleBilling "browser_0"]

/-- A browser currently bound to consumer `00009876543` with an active
captcha challenge. -/
def captchaBd : BrowserData :=
  { busy := true, currentConsumer := some "00009876543", captchaRequired := true }

/-- A one-browser pool whose only browser is busy on a captcha, with an
empty free list. -/
def captchaPool : PoolState :=
  { browsers := [("browser_0", captchaBd)]
    availableBrowsers := []
    busyBrowsers := ["browser_0"]
    captchaLocks := [("browser_0", 5, "00009876543")]
    browserQueue := []
    resolved := [] }

/-- The captcha pool with waiter 7 already queued (its wrapper closure is in
`browserQueue`). -/
def queuedPool : PoolState :=
  { captchaPool with browserQueue := [QueueEntry.wrapper 7] }

/-! ## Claims -/

/-- C1. The claim states that once a batch reaches a terminal status the
results collection holds exactly one Outcome per submitted Work Item, with
an Outcome under the normalized (zero-padded) identifier and one under the
raw identifier counting for the same item. The code violates it: success
entries are recorded under the padded/site-echoed identifier while
`finishProcessing` tests queue membership against the raw identifier, so a
short identifier that succeeded is appended a second time as a timeout
error when completion is forced. At the concrete failing input the item
`9876543` receives two Outcomes. -/
theorem C1_duplicate_outcome_on_forced_completion :
    outcomesFor "9876543" (finishResults sampleQueue 1 sampleResults) = 2
  ∧ outcomesFor "14102000674" (finishResults sampleQueue 1 sampleResults) = 1
  ∧ (finishResults sampleQueue 1 sampleResults).length = 3 := by
  decide

/-- C2. The claim states that after at least one completion, a 60-second
window without further completions (with more than 60 seconds elapsed)
makes the periodic checker force completion with the stalled reason. The
code compares the elapsed duration `now - startTime` against the absolute
timestamp `lastCompletionTime + 60000`, so with a realistic epoch clock the
stall condition is false even though 70 seconds passed since the only
completion, and the checker keeps running. -/
theorem C2_stall_condition_never_fires :
    isStalled 1000000000000 1000000010000 1000000080000 1 = false
  ∧ completionCheck 2 1 1000000000000 1000000010000 1000000080000 =
      CompletionReason.keepRunning
  ∧ 1000000080000 - 1000000010000 > stallWindowMs
  ∧ 1000000080000 - 1000000000000 > stallWindowMs := by
  decide

/-- C5. The claim states that an exhausted-pool acquire suspends the caller
and, after the bounded five-minute wait, fails with no usable handle. The
code does queue the caller (first conjunct), but the timeout handler looks
up `browserQueue.indexOf(resolve)` while the queue holds the wrapper
closure, never the bare resolver: the lookup misses, the timeout step is
the identity, and the waiter is never resolved with `null` — the caller
stays suspended past the bound instead of failing. -/
theorem C5_acquire_timeout_never_resolves :
    (getAvailableBrowser 7 captchaPool).1 = AcquireResult.queuedWaiter
  ∧ (getAvailableBrowser 7 captchaPool).2.browserQueue = [QueueEntry.wrapper 7]
  ∧ acquireTimeout 7 (getAvailableBrowser 7 captchaPool).2 =
      (getAvailableBrowser 7 captchaPool).2
  ∧ (acquireTimeout 7 (getAvailableBrowser 7 captchaPool).2).resolved = []
  ∧ indexOfEntry [QueueEntry.wrapper 7] (QueueEntry.resolver 7) = none := by
  decide

/-- C6 counterexample. The claim as stated quantifies over every release
while waiters are queued; releasing `browser_0` over `queuedPool` when the
release-time page reset fails puts the browser on the free list, leaves the
waiter queued and resolves nothing — the session is not handed to the
oldest waiter. -/
theorem C6_reset_failure_release_counterexample :
    (releaseBrowser "browser_0" false queuedPool).availableBrowsers = ["browser_0"]
  ∧ (releaseBrowser "browser_0" false queuedPool).browserQueue = [QueueEntry.wrapper 7]
  ∧ (releaseBrowser "browser_0" false queuedPool).resolved = [] := by
  decide

/-- C7 counterexample. The identifier `123456789012` has 12 digits, passes
intake validation (6-15 digits), and both normalizations — the server-side
`padStart(11, '0')` and `ExcelProcessor.formatConsumerNumber` — leave it at
width 12, not the claimed fixed width 11. -/
theorem C7_overlong_identifier_counterexample :
    isValidConsumerNumber "123456789012" = true
  ∧ padStart11 "123456789012" = "123456789012"
  ∧ formatConsumerNumber "123456789012" = "123456789012"
  ∧ (formatConsumerNumber "123456789012").length = 12 := by
  decide

/-- C10 counterexample. An entry whose `error` property is present but the
empty string carries an error field, yet `if (result.error)` is falsy, so
`getStatistics` counts it successful: `failed` is 0, not 1. -/
theorem C10_empty_error_counterexample :
    (getStatistics
        [{ consumerNo := "14102000674", error := some "", data := none, browserId := none }]).failed = 0
  ∧ (getStatistics
        [{ consumerNo := "14102000674", error := some "", data := none, browserId := none }]).successful = 1
  ∧ (Option.isSome
        ({ consumerNo := "14102000674", error := some "", data := none, browserId := none } : ResultEntry).error) = true := by
  decide

/-- C3. For a Work Item whose per-attempt workflow always fails (oracle
always `error`), `processConsumer` performs exactly three attempts, releases
the granted browser after every failed attempt, waits the fixed 5-second
backoff between consecutive attempts (and not after the last), and the
driver records a terminal error entry carrying the third attempt's message;
the trace contains no fourth attempt. -/
theorem C3_retry_exactly_three_attempts (acq : Nat → String) (f : Nat → String)
    (consumerNo : String) :
    runConsumer acq (fun n => Except.error (f n)) consumerNo =
      ([.acquire (acq 0), .workflowAttempt 0 (acq 0), .release (acq 0),
        .backoffWait retryBackoffMs,
        .acquire (acq 1), .workflowAttempt 1 (acq 1), .release (acq 1),
        .backoffWait retryBackoffMs,
        .acquire (acq 2), .workflowAttempt 2 (acq 2), .release (acq 2)],
       recordFailure consumerNo (f 2))
  ∧ ((runConsumer acq (fun n => Except.error (f n)) consumerNo).1.countP
        (fun e => match e with | .workflowAttempt _ _ => true | _ => false)) = 3 := by
  constructor
  · rfl
  · rfl

/-- C7 amended. Intake rejects any raw identifier with fewer than 6 or more
than 15 digits after stripping non-digits (`123` is rejected; every
identifier that survives `readConsumerNumbers` is valid), and normalization
left-zero-pads to width 11 exactly when the digit string is shorter than
11: the normalized form is all-numeric of width `max 11 digits`, so
`9876543` becomes `00009876543` and `14102000674` passes unchanged, while
accepted identifiers of 12-15 digits keep their own width. -/
theorem C7_identifier_intake_normalization :
    (∀ rows x, x ∈ readConsumerNumbers rows → isValidConsumerNumber x = true)
  ∧ isValidConsumerNumber "123" = false
  ∧ formatConsumerNumber "9876543" = "00009876543"
  ∧ formatConsumerNumber "14102000674" = "14102000674"
  ∧ padStart11 "9876543" = "00009876543"
  ∧ padStart11 "14102000674" = "14102000674"
  ∧ (∀ t, (formatConsumerNumber t).data.all Char.isDigit = true
        ∧ (formatConsumerNumber t).length = max 11 (stripNonDigits t).length)
  ∧ (∀ t, isValidConsumerNumber t = true ↔
        6 ≤ (stripNonDigits t).length ∧ (stripNonDigits t).length ≤ 15) :=
  ⟨readConsumerNumbers_valid, by decide, by decide, by decide, by decide, by decide,
   fun t => ⟨formatConsumerNumber_digits t, formatConsumerNumber_length t⟩,
   isValidConsumerNumber_iff⟩

/-- C7 witness: the membership conjunct applied to a concrete sheet whose
rows hold a header, a too-short identifier and a valid one. -/
theorem C7_identifier_intake_normalization_witness :
    ("9876543" ∈ readConsumerNumbers [["Consumer Number"], ["123"], ["9876543"]])
  ∧ isValidConsumerNumber "9876543" = true
  ∧ readConsumerNumbers [["Consumer Number"], ["123"], ["9876543"]] = ["9876543"] :=
  ⟨by decide,
   C7_identifier_intake_normalization.1 [["Consumer Number"], ["123"], ["9876543"]]
     "9876543" (by decide),
   by decide⟩

/-- C10 amended. For every results list the counters of `getStatistics`
partition it: `total` is the length, `successful + failed = total`, and an
entry counts as failed exactly when it carries a truthy (present and
non-empty) error field. -/
theorem C10_statistics_partition (results : List ResultEntry) :
    (getStatistics results).total = results.length
  ∧ (getStatistics results).successful + (getStatistics results).failed = results.length
  ∧ (getStatistics results).failed =
      (results.filter (fun r => isTruthyError r.error)).length
  ∧ (getStatistics results).successful =
      (results.filter (fun r => !isTruthyError r.error)).length := by
  have h : getStatistics results =
      ⟨results.length,
       0 + (results.filter (fun r => !isTruthyError r.error)).length,
       0 + (results.filter (fun r => isTruthyError r.error)).length⟩ :=
    getStatistics_foldl results results.length 0 0
  have hp : (results.filter (fun r => isTruthyError r.error)).length +
      (results.filter (fun r => !isTruthyError r.error)).length = results.length :=
    filter_length_partition results (fun r => isTruthyError r.error)
  rw [h]
  dsimp only
  exact ⟨rfl, by omega, by omega, by omega⟩

/-- C9. Releasing a browser id that is not in the pool's browser map is a
no-op: the call returns (no error) with the whole pool state — free list,
busy set, captcha locks, queue, every browser — unchanged. -/
theorem C9_release_unknown_browser_noop (s : PoolState) (browserId : String)
    (h : mapGet s.browsers browserId = none) (resetOk : Bool) :
    releaseBrowser browserId resetOk s = s := by
  simp [releaseBrowser, h]

/-- C9 witness: releasing the absent id `browser_9` over the concrete pool. -/
theorem C9_release_unknown_browser_noop_witness :
    mapGet captchaPool.browsers "browser_9" = none
  ∧ releaseBrowser "browser_9" true captchaPool = captchaPool :=
  ⟨by decide, C9_release_unknown_browser_noop captchaPool "browser_9" (by decide) true⟩

/-- C8. When the release-time reset of the external workflow state fails,
the catch branch still marks the browser not busy, removes it from the busy
set and appends it to the free list; the failure is swallowed (the function
is total) and the browser stays in circulation. -/
theorem C8_reset_failure_still_frees_session (s : PoolState) (browserId : String)
    (bd : BrowserData) (h : mapGet s.browsers browserId = some bd) :
    (releaseBrowser browserId false s).availableBrowsers = s.availableBrowsers ++ [browserId]
  ∧ mapGet (releaseBrowser browserId false s).browsers browserId = some { bd with busy := false }
  ∧ browserId ∉ (releaseBrowser browserId false s).busyBrowsers
  ∧ (releaseBrowser browserId false s).browserQueue = s.browserQueue := by
  have hrel : releaseBrowser browserId false s =
      { s with browsers := mapSet s.browsers browserId { bd with busy := false }
               busyBrowsers := setDelete s.busyBrowsers browserId
               availableBrowsers := s.availableBrowsers ++ [browserId] } := by
    simp [releaseBrowser, h]
  rw [hrel]
  exact ⟨rfl, mapGet_mapSet_self s.browsers browserId _,
    not_mem_setDelete_self s.busyBrowsers browserId, rfl⟩

/-- C8 witness: reset failure on the concrete queued pool. -/
theorem C8_reset_failure_still_frees_session_witness :
    mapGet queuedPool.browsers "browser_0" = some captchaBd
  ∧ (releaseBrowser "browser_0" false queuedPool).availableBrowsers = ["browser_0"]
  ∧ "browser_0" ∉ (releaseBrowser "browser_0" false queuedPool).busyBrowsers :=
  ⟨by decide,
   by
     have hc := C8_reset_failure_still_frees_session queuedPool "browser_0" captchaBd (by decide)
     exact hc.1,
   by
     have hc := C8_reset_failure_still_frees_session queuedPool "browser_0" captchaBd (by decide)
     exact hc.2.2.1⟩

/-- C6 amended. A release whose workflow-state reset succeeds hands the
browser directly to the oldest queued waiter — the waiter is resolved with
the browser id exactly once, the free list is untouched and the waiter
leaves the queue — and with an empty queue the browser joins the free list;
two successive successful releases serve the two queued waiters in FIFO
order. A release whose reset fails, however, puts the browser on the free
list even when waiters are queued (the counterexample to the unqualified
claim); in every case the browser goes to exactly one place. -/
theorem C6_release_fifo_handoff (s : PoolState) (browserId : String) (bd : BrowserData)
    (h : mapGet s.browsers browserId = some bd) :
    (∀ e restQ, s.browserQueue = e :: restQ →
        (releaseBrowser browserId true s).resolved =
          s.resolved ++ [(waiterOf e, some browserId)]
      ∧ (releaseBrowser browserId true s).availableBrowsers = s.availableBrowsers
      ∧ (releaseBrowser browserId true s).browserQueue = restQ)
  ∧ (s.browserQueue = [] →
        (releaseBrowser browserId true s).availableBrowsers =
          s.availableBrowsers ++ [browserId]
      ∧ (releaseBrowser browserId true s).resolved = s.resolved)
  ∧ ((releaseBrowser browserId false s).availableBrowsers =
        s.availableBrowsers ++ [browserId]
    ∧ (releaseBrowser browserId false s).resolved = s.resolved)
  ∧ (∀ browserId₂ bd₂ e₁ e₂,
        mapGet s.browsers browserId₂ = some bd₂ → browserId₂ ≠ browserId →
        s.browserQueue = [e₁, e₂] →
        (releaseBrowser browserId₂ true (releaseBrowser browserId true s)).resolved =
          s.resolved ++ [(waiterOf e₁, some browserId), (waiterOf e₂, some browserId₂)]) := by
  refine ⟨?_, ?_, ?_, ?_⟩
  · intro e restQ hq
    refine ⟨?_, ?_, ?_⟩ <;> simp [releaseBrowser, h, hq]
  · intro hq
    refine ⟨?_, ?_⟩ <;> simp [releaseBrowser, h, hq]
  · refine ⟨?_, ?_⟩ <;> simp [releaseBrowser, h]
  · intro browserId₂ bd₂ e₁ e₂ h₂ hne hq
    have hg₂ : mapGet (releaseBrowser browserId true s).browsers browserId₂ = some bd₂ := by
      simp [releaseBrowser, h, hq, mapGet_mapSet_ne _ _ _ _ hne, h₂]
    have hq₂ : (releaseBrowser browserId true s).browserQueue = [e₂] := by
      simp [releaseBrowser, h, hq]
    have hres : (releaseBrowser browserId true s).resolved =
        s.resolved ++ [(waiterOf e₁, some browserId)] := by
      simp [releaseBrowser, h, hq]
    generalize hS : releaseBrowser browserId true s = S at hg₂ hq₂ hres ⊢
    simp [releaseBrowser, hg₂, hq₂, hres]

/-- C6 witness: releasing `browser_0` with a successful reset over the pool
with waiter 7 queued hands it to waiter 7 and leaves the free list empty. -/
theorem C6_release_fifo_handoff_witness :
    mapGet queuedPool.browsers "browser_0" = some captchaBd
  ∧ queuedPool.browserQueue = [QueueEntry.wrapper 7]
  ∧ (releaseBrowser "browser_0" true queuedPool).resolved = [(7, some "browser_0")]
  ∧ (releaseBrowser "browser_0" true queuedPool).availableBrowsers = [] := by
  have hc := (C6_release_fifo_handoff queuedPool "browser_0" captchaBd (by decide)).1
    (QueueEntry.wrapper 7) [] (by decide)
  exact ⟨by decide, by decide, hc.1, hc.2.1⟩

/-- C4. An answer whose (session, identifier) pair does not match the
active challenge of the browser is rejected with the mismatch error and
never forwarded to the workflow; a matching answer is accepted
(`captcha-submitted` is emitted, the answer reaches the site) and, because
the finally-block release clears the browser's challenge state, any second
submission against the resulting state is rejected without being
forwarded — the challenge is consumed exactly once. -/
theorem C4_captcha_answer_pairing (s : PoolState) (browserId consumerNo : String)
    (bd : BrowserData) (h : mapGet s.browsers browserId = some bd) :
    (∀ resp extract resetOk,
        bd.captchaRequired = false ∨ bd.currentConsumer ≠ some consumerNo →
        (captchaResponse true browserId consumerNo resp extract resetOk s).1 =
          ⟨false, some "Invalid browser state or consumer mismatch", false⟩)
  ∧ (bd.captchaRequired = true → bd.currentConsumer = some consumerNo →
      ∀ d, (captchaResponse true browserId consumerNo .billShown (.ok d) true s).1 =
             ⟨true, none, true⟩
        ∧ ∀ resp₂ extract₂ resetOk₂,
            ((captchaResponse true browserId consumerNo resp₂ extract₂ resetOk₂
                (captchaResponse true browserId consumerNo
                  .billShown (.ok d) true s).2).1).captchaSubmitted = false
          ∧ ((captchaResponse true browserId consumerNo resp₂ extract₂ resetOk₂
                (captchaResponse true browserId consumerNo
                  .billShown (.ok d) true s).2).1).forwarded = false) := by
  constructor
  · intro resp extract resetOk hmis
    rcases hmis with h₁ | h₂
    · simp [captchaResponse, h, h₁]
    · have hbne : (bd.currentConsumer != some consumerNo) = true := bne_iff_ne.mpr h₂
      simp [captchaResponse, h, hbne]
  · intro hreq hcons d
    constructor
    · simp [captchaResponse, submitCaptcha, h, hreq, hcons]
    · intro resp₂ extract₂ resetOk₂
      have hstate : (captchaResponse true browserId consumerNo .billShown (.ok d) true s).2 =
          releaseBrowser browserId true
            { s with browsers := mapSet s.browsers browserId
                       { bd with captchaRequired := false } } := by
        simp [captchaResponse, submitCaptcha, h, hreq, hcons]
      have hget₀ : mapGet (mapSet s.browsers browserId { bd with captchaRequired := false })
          browserId = some { bd with captchaRequired := false } :=
        mapGet_mapSet_self s.browsers browserId _
      obtain ⟨bd₂, hget, hcf, _⟩ := releaseBrowser_get_self
        { s with browsers := mapSet s.browsers browserId { bd with captchaRequired := false } }
        browserId { bd with captchaRequired := false } hget₀
      rw [hstate]
      simp [captchaResponse, hget, hcf]

/-- C4 witness: over the concrete captcha pool, the wrong identifier is
rejected and never forwarded, the matching identifier is accepted, and a
second submission of the same answer after the challenge resolved is
rejected. -/
theorem C4_captcha_answer_pairing_witness :
    mapGet captchaPool.browsers "browser_0" = some captchaBd
  ∧ (captchaResponse true "browser_0" "wrong" .billShown (.ok sampleBilling)
       true captchaPool).1 =
      ⟨false, some "Invalid browser state or consumer mismatch", false⟩
  ∧ (captchaResponse true "browser_0" "00009876543" .billShown (.ok sampleBilling)
       true captchaPool).1 = ⟨true, none, true⟩
  ∧ ((captchaResponse true "browser_0" "00009876543" .billShown (.ok sampleBilling) true
        (captchaResponse true "browser_0" "00009876543" .billShown (.ok sampleBilling)
          true captchaPool).2).1).captchaSubmitted = false := by
  have hmis := (C4_captcha_answer_pairing captchaPool "browser_0" "wrong" captchaBd
    (by decide)).1 .billShown (.ok sampleBilling) true (Or.inr (by decide))
  have hok := (C4_captcha_answer_pairing captchaPool "browser_0" "00009876543" captchaBd
    (by decide)).2 rfl rfl sampleBilling
  exact ⟨by decide, hmis, hok.1, (hok.2 .billShown (.ok sampleBilling) true).1⟩

end MGVCL
